import Mathlib

/-!
Shallow embedding of the query-and-transform pipeline of the health_app
backend (src/backend/src/python/main.py and influxdb3.py), together with
theorems checking the natural-language specification against it.

Modelling conventions:
* Instants (`datetime`) and dates are integers counting seconds since the
  Unix epoch; a `date` value is the instant at its midnight.  One day is
  86400 seconds.
* The clock collaborator (`datetime.now(ZoneInfo("America/New_York"))`)
  is injected as a parameter `now`; the zone conversion applied by
  `convert_time_zone` is injected as an offset `tz` in seconds.
* DataFrames are lists of per-family row structures; an empty polars
  frame (`pl.DataFrame()`, no columns) is the empty list.
* Numeric store fields are `ℚ`; a polars `.cast(pl.Int64)` of a float is
  truncation toward zero, modelled by `ratTrunc`.
* Fallible pipeline stages return `Except String _`; a polars
  `ColumnNotFoundError` raised on a frame without the column is the
  `Except.error` case.
-/

/-- Seconds in one day. -/
def secondsPerDay : ℤ := 86400

/-- Truncation of a rational toward zero, the semantics of polars
`.cast(pl.Int64)` applied to a float column.  For `q = num/den` with
`den > 0` this is exactly truncated integer division. -/
def ratTrunc (q : ℚ) : ℤ := q.num.tdiv q.den

/-- Mean of a list of rationals (`pl.mean()`); division by zero in `ℚ`
yields 0, but every call site applies it to a nonempty group. -/
def ratMean (xs : List ℚ) : ℚ := xs.sum / xs.length

/-- Calendar day number of an instant (floor division by 86400),
modelling `.dt.date()` / `.dt.strftime("%Y-%m-%d")` day truncation. -/
def dayOf (t : ℤ) : ℤ := Int.fdiv t secondsPerDay

/-- Civil date (year, month, day) of an epoch day number
(proleptic Gregorian), used to model `strftime` month/day rendering. -/
def civilFromDays (z0 : ℤ) : ℤ × ℤ × ℤ :=
  let z := z0 + 719468
  let era := Int.fdiv z 146097
  let doe := z - era * 146097
  let yoe := Int.fdiv (doe - Int.fdiv doe 1460 + Int.fdiv doe 36524 - Int.fdiv doe 146096) 365
  let y := yoe + era * 400
  let doy := doe - (365 * yoe + Int.fdiv yoe 4 - Int.fdiv yoe 100)
  let mp := Int.fdiv (5 * doy + 2) 153
  let d := doy - Int.fdiv (153 * mp + 2) 5 + 1
  let m := mp + (if mp < 10 then 3 else -9)
  (y + (if m ≤ 2 then 1 else 0), m, d)

/-- Abbreviated month name (`strftime` `%h`). -/
def monthAbbrev (m : ℤ) : String :=
  if m = 1 then "Jan" else if m = 2 then "Feb" else if m = 3 then "Mar"
  else if m = 4 then "Apr" else if m = 5 then "May" else if m = 6 then "Jun"
  else if m = 7 then "Jul" else if m = 8 then "Aug" else if m = 9 then "Sep"
  else if m = 10 then "Oct" else if m = 11 then "Nov" else if m = 12 then "Dec"
  else ""

/-- Render a nonnegative integer, zero-padded to two digits (`%H`, `%M`, …). -/
def pad2 (n : ℤ) : String :=
  if n < 10 then "0" ++ toString n else toString n

/-- Render an integer, space-padded to two characters (`%e`). -/
def padSpace2 (n : ℤ) : String :=
  if n < 10 then " " ++ toString n else toString n

/-- Model of `strftime("%h %e")` on an instant: abbreviated month, space-padded day. -/
def formatMonthDay (t : ℤ) : String :=
  let c := civilFromDays (dayOf t)
  monthAbbrev c.2.1 ++ " " ++ padSpace2 c.2.2

/-- Model of `strftime("%H:%M")` on an instant. -/
def formatHM (t : ℤ) : String :=
  let s := Int.emod t secondsPerDay
  pad2 (Int.fdiv s 3600) ++ ":" ++ pad2 (Int.emod (Int.fdiv s 60) 60)

/-- Model of `strftime("%Y-%m-%d %H:%M")` on an instant. -/
def formatYMDHM (t : ℤ) : String :=
  let c := civilFromDays (dayOf t)
  toString c.1 ++ "-" ++ pad2 c.2.1 ++ "-" ++ pad2 c.2.2 ++ " " ++ formatHM t

/-- A resolved query time window; per the source, `end` is the earlier
bound and `start` the later one, and range predicates are
`time > end AND time <= start`.  (`end` is a Lean keyword, hence
`wEnd`/`wStart`.) -/
structure TimeWindow where
  wEnd : ℤ
  wStart : ℤ
deriving DecidableEq

/-- Window resolution shared by `get_blood_pressure`, `get_glucose`,
`get_dietary_trends` and `get_body_composition` (main.py lines 209-221
and analogues): `start = today.isoformat()` is always the injected
clock value, and `end` is 30 days before the supplied `end_date`, or 30
days before now when no date is supplied. -/
def resolveWindow30 (now : ℤ) (end_date : Option ℤ) : TimeWindow :=
  { wEnd := (match end_date with
      | none => now - 30 * secondsPerDay
      | some d => d - 30 * secondsPerDay),
    wStart := now }

/-- Window resolution of `get_sleep` (lines 288-299): 7-day lookback. -/
def resolveWindowSleep (now : ℤ) (end_date : Option ℤ) : TimeWindow :=
  { wEnd := (match end_date with
      | none => now - 7 * secondsPerDay
      | some d => d - 7 * secondsPerDay),
    wStart := now }

/-- Window resolution of `get_workouts` (lines 324-335): when no date is
supplied the lookback is 90 days; when a date is supplied it is 30 days
before that date. -/
def resolveWindowWorkouts (now : ℤ) (date : Option ℤ) : TimeWindow :=
  { wEnd := (match date with
      | none => now - 90 * secondsPerDay
      | some d => d - 30 * secondsPerDay),
    wStart := now }

/-- Trend window resolution of `get_dietary_trends` (lines 376-390):
the trend query uses a 37-day lookback to the same `start`. -/
def resolveWindowDietaryTrend (now : ℤ) (end_date : Option ℤ) : TimeWindow :=
  { wEnd := (match end_date with
      | none => now - 37 * secondsPerDay
      | some d => d - 37 * secondsPerDay),
    wStart := now }

/-! ## The store collaborator boundary (influxdb3.py) -/

/-- Stable insertion of a row into a time-sorted list. -/
def insertByTime {α : Type} (timeOf : α → ℤ) (x : α) : List α → List α
  | [] => [x]
  | y :: ys => if timeOf x < timeOf y then x :: y :: ys else y :: insertByTime timeOf x ys

/-- Model of `df.sort("time")`: stable sort by the time column. -/
def sortByTime {α : Type} (timeOf : α → ℤ) (l : List α) : List α :=
  l.foldr (insertByTime timeOf) []

/-- Model of `InfluxConnectorV3.get_dataframe` (influxdb3.py lines 17-44): the
query result is either rows or an opaque failure; any exception is
caught and converted to the empty frame, an empty result is normalized
to the empty frame, and otherwise the frame is sorted by `time`. -/
def get_dataframe {α : Type} (timeOf : α → ℤ) (res : Except String (List α)) : List α :=
  match res with
  | Except.error _ => []
  | Except.ok rows => if rows.isEmpty then [] else sortByTime timeOf rows

/-! ## Blood pressure (`get_blood_pressure`, main.py lines 208-251) -/

structure BPRow where
  time : ℤ
  systolic : ℤ
  diastolic : ℤ
deriving DecidableEq

structure BPRecord where
  time : String
  systolic : ℤ
  diastolic : ℤ
  category : String
deriving DecidableEq

/-- The five-rule classification cascade (lines 236-248): a polars
`when/then/otherwise` chain, evaluated top-down, first match wins. -/
def bpCategory (systolic diastolic : ℤ) : String :=
  if systolic > 180 ∨ diastolic > 120 then "Hypertensive Crisis"
  else if systolic ≥ 140 ∨ diastolic ≥ 90 then "Hypertension Stage 2"
  else if systolic ≥ 130 ∨ diastolic ≥ 80 then "Hypertension Stage 1"
  else if systolic ≥ 120 ∧ diastolic < 80 then "Elevated"
  else "Normal"

/-- One output record of the blood-pressure transform: `time` formatted
`%h %e`, category from the cascade. -/
def mkBPRecord (r : BPRow) : BPRecord :=
  { time := formatMonthDay r.time,
    systolic := r.systolic,
    diastolic := r.diastolic,
    category := bpCategory r.systolic r.diastolic }

/-- The `get_blood_pressure` transform body after the store query (lines
232-251): empty frame short-circuits to `[]`, otherwise each row is
classified and formatted.  The window parameters bound the query text
only; the query result is the `res` input. -/
def get_blood_pressure (end_date : Option ℤ) (now : ℤ) (res : List BPRow) : List BPRecord :=
  let _window := resolveWindow30 now end_date
  if res.isEmpty then [] else res.map mkBPRecord

/-! ## Summary (`get_summary`, main.py lines 131-176) -/

structure DailyTotalRow where
  time : ℤ
  metric : String
  source : String
  value : ℚ
deriving DecidableEq

structure SummaryResponse where
  steps : ℚ
  distance : ℚ
  activeCalories : ℚ
  basalCalories : ℚ
  dietaryCalories : ℚ
deriving DecidableEq

/-- First cell of a selected `value` column, or 0 when the filtered
frame is empty (`0.0 if q.is_empty() else q[0,0]`). -/
def firstValueOr0 : List DailyTotalRow → ℚ
  | [] => 0
  | r :: _ => r.value

/-- The `get_summary` transform: the `date` query parameter is bound but
never read; `today` comes from the injected clock and zone.  An empty
frame yields the all-zero record; otherwise rows are restricted to
today's date and five tag-filtered first values are extracted. -/
def get_summary (date : Option ℤ) (now tz : ℤ) (res : List DailyTotalRow) : SummaryResponse :=
  let today := dayOf (now + tz)
  if res.isEmpty then
    { steps := 0, distance := 0, activeCalories := 0, basalCalories := 0, dietaryCalories := 0 }
  else
    let df := res.filter fun r => decide (dayOf r.time = today)
    let steps_query := df.filter fun r => decide (r.metric = "step_count" ∧ r.source = "RingConn")
    let distance_query := df.filter fun r => decide (r.metric = "walking_running_distance")
    let act_cal_query := df.filter fun r => decide (r.metric = "active_energy" ∧ r.source = "RingConn")
    let b_cal_query := df.filter fun r => decide (r.metric = "basal_energy_burned" ∧ r.source = "RingConn")
    let calories_query := df.filter fun r => decide (r.metric = "dietary_energy")
    { steps := firstValueOr0 steps_query,
      distance := firstValueOr0 distance_query,
      activeCalories := firstValueOr0 act_cal_query,
      basalCalories := firstValueOr0 b_cal_query,
      dietaryCalories := firstValueOr0 calories_query }

/-! ## Heart rate (`get_heart_rate`, main.py lines 178-206) -/

structure HRRow where
  time : ℤ
  avg : ℚ
  max : ℚ
  min : ℚ
deriving DecidableEq

structure BucketedHR where
  time : ℤ
  avg : ℚ
  max : ℚ
  min : ℚ
deriving DecidableEq

structure HRRecord where
  time : String
  value : ℚ
deriving DecidableEq

/-- Start of the 10-minute bucket containing `t`
(`group_by_dynamic("time", every="10m")`, epoch-aligned windows). -/
def bucket10m (t : ℤ) : ℤ := 600 * Int.fdiv t 600

/-- Maximum of a list of rationals (groups are nonempty at call sites). -/
def listMax : List ℚ → ℚ
  | [] => 0
  | x :: xs => xs.foldl max x

/-- Minimum of a list of rationals (groups are nonempty at call sites). -/
def listMin : List ℚ → ℚ
  | [] => 0
  | x :: xs => xs.foldl min x

/-- Ascending insertion with deduplication. -/
def insertSortedDedup (x : ℤ) : List ℤ → List ℤ
  | [] => [x]
  | y :: ys => if x < y then x :: y :: ys else if x = y then y :: ys else y :: insertSortedDedup x ys

/-- Sorted, duplicate-free list of keys (dynamic group-by windows are
emitted in ascending order). -/
def sortDedup (l : List ℤ) : List ℤ := l.foldr insertSortedDedup []

/-- The `get_heart_rate` transform: the `date` query parameter is bound but
never read.  On an empty store result the connector hands back a frame
with no columns, so the first `pl.col("time")` access raises
(`ColumnNotFoundError`), modelled as `Except.error`.  Otherwise times
are shifted into the display zone, bucketed into 10-minute windows with
mean/max/min aggregation, and mean is emitted as the display value. -/
def get_heart_rate (date : Option ℤ) (now tz : ℤ) (res : List HRRow) : Except String (List HRRecord) :=
  let _today := dayOf (now + tz)
  if res.isEmpty then Except.error "ColumnNotFoundError: time" else
  let shifted := res.map fun r => { r with time := r.time + tz }
  let keys := sortDedup (shifted.map fun r => bucket10m r.time)
  let bucketed : List BucketedHR := keys.map fun k =>
    let g := shifted.filter fun r => decide (bucket10m r.time = k)
    { time := k, avg := ratMean (g.map HRRow.avg),
      max := listMax (g.map HRRow.max), min := listMin (g.map HRRow.min) }
  Except.ok (bucketed.map fun b => { time := formatHM b.time, value := b.avg })

/-! ## Glucose (`get_glucose`, main.py lines 253-284) -/

structure GlucoseRow where
  time : ℤ
  qty : ℚ
deriving DecidableEq

structure GlucoseRecord where
  time : String
  value : ℚ
deriving DecidableEq

/-- The `get_glucose` transform: empty frame short-circuits to `[]`,
otherwise a passthrough rename `qty -> value` with time formatting. -/
def get_glucose (end_date : Option ℤ) (now : ℤ) (res : List GlucoseRow) : List GlucoseRecord :=
  let _window := resolveWindow30 now end_date
  if res.isEmpty then [] else
  res.map fun r => { time := formatMonthDay r.time, value := r.qty }

/-! ## Sleep (`get_sleep`, main.py lines 286-320) -/

structure SleepRow where
  time : ℤ
  totalSleep : ℚ
  deep : ℚ
  rem : ℚ
  core : ℚ
  awake : ℚ
deriving DecidableEq

structure SleepRecord where
  date : String
  totalDuration : ℚ
  deepSleep : ℚ
  remSleep : ℚ
  lightSleep : ℚ
  awake : ℚ
  efficiency : ℚ
deriving DecidableEq

/-- The `get_sleep` transform: empty frame short-circuits to `[]`,
otherwise stage columns are renamed and a constant efficiency
placeholder of 95 is attached. -/
def get_sleep (end_date : Option ℤ) (now : ℤ) (res : List SleepRow) : List SleepRecord :=
  let _window := resolveWindowSleep now end_date
  if res.isEmpty then [] else
  res.map fun r =>
    { date := formatMonthDay r.time, totalDuration := r.totalSleep, deepSleep := r.deep,
      remSleep := r.rem, lightSleep := r.core, awake := r.awake, efficiency := 95 }

/-! ## Left join (`DataFrame.join(other, on, how="left")`) -/

/-- Output rows contributed by one left row given its matching right
rows: no match yields the single null-extended row, otherwise one
output row per match. -/
def matchRows {α β : Type} (ms : List β) (a : α) : List (α × Option β) :=
  match ms with
  | [] => [(a, none)]
  | ms => ms.map fun b => (a, some b)

/-- Polars left join on a key: left rows in order, each paired with
every matching right row, or with null when no right row matches. -/
def joinLeft {α β K : Type} [DecidableEq K]
    (left : List α) (right : List β) (lk : α → K) (rk : β → K) : List (α × Option β) :=
  left.flatMap fun a => matchRows (right.filter fun b => decide (rk b = lk a)) a

/-! ## Workouts (`get_workouts`, main.py lines 322-372) -/

structure WorkoutRow where
  workout_id : String
  time : ℤ
  workout_name : String
  duration : ℚ
  active_energy_value : ℚ
deriving DecidableEq

structure ShapedWorkout where
  workout_id : String
  time : ℤ
  workout_name : String
  type : String
  duration : ℤ
  active_energy_value : ℤ
deriving DecidableEq

structure WorkoutHRRow where
  workout_id : String
  time : ℤ
  avg : ℚ
deriving DecidableEq

structure HRAgg where
  workout_id : String
  avg : ℤ
deriving DecidableEq

structure WorkoutRecord where
  workout_id : String
  time : String
  name : String
  duration : ℤ
  calories : ℤ
  type : String
  avgHr : Option ℤ
deriving DecidableEq

/-- Lines 350-354: select the five columns, duplicate `workout_name`
into `type`, convert `duration` seconds to minutes with
`(duration / 60).cast(pl.Int64)` (truncation), cast calories. -/
def shapeWorkout (w : WorkoutRow) : ShapedWorkout :=
  { workout_id := w.workout_id, time := w.time, workout_name := w.workout_name,
    type := w.workout_name, duration := ratTrunc (w.duration / 60),
    active_energy_value := ratTrunc w.active_energy_value }

/-- Line 366: `df2.group_by("workout_id").agg(pl.col("avg").mean().cast(pl.Int64))` —
one aggregate row per distinct workout id. -/
def groupWorkoutHR (rows : List WorkoutHRRow) : List HRAgg :=
  ((rows.map WorkoutHRRow.workout_id).dedup).map fun k =>
    { workout_id := k,
      avg := ratTrunc (ratMean ((rows.filter fun r => decide (r.workout_id = k)).map WorkoutHRRow.avg)) }

/-- One output dict of the workouts transform after the join, timestamp
formatting and renames (`workout_name -> name`, `active_energy_value ->
calories`, `avg -> avgHr`); an unmatched join leaves `avgHr` null. -/
def mkWorkoutRecord (s : ShapedWorkout) (hr : Option HRAgg) : WorkoutRecord :=
  { workout_id := s.workout_id, time := formatYMDHM s.time, name := s.workout_name,
    duration := s.duration, calories := s.active_energy_value, type := s.type,
    avgHr := hr.map HRAgg.avg }

/-- The `get_workouts` transform: an empty workout frame
short-circuits to `[]` before the heart-rate query; a zero-row
`workout_heart_rate` result is a frame with no columns (per the
connector), so `df2.group_by("workout_id")` at line 366 raises
(`ColumnNotFoundError`), modelled as `Except.error`; otherwise shaped
workout rows are left-joined on `workout_id` with the per-workout
heart-rate averages. -/
def get_workouts (date : Option ℤ) (now : ℤ)
    (wres : List WorkoutRow) (hres : List WorkoutHRRow) :
    Except String (List WorkoutRecord) :=
  let _window := resolveWindowWorkouts now date
  if wres.isEmpty then Except.ok [] else
  if hres.isEmpty then Except.error "ColumnNotFoundError: workout_id" else
  let df := wres.map shapeWorkout
  let df2 := groupWorkoutHR hres
  Except.ok ((joinLeft df df2 ShapedWorkout.workout_id HRAgg.workout_id).map
    fun p => mkWorkoutRecord p.1 p.2)

/-! ## Body composition (`get_body_composition`, main.py lines 508-560) -/

structure WeightRow where
  time : ℤ
  qty : ℚ
deriving DecidableEq

structure BodyFatRow where
  time : ℤ
  qty : ℚ
deriving DecidableEq

structure BodyCompRecord where
  time : String
  weight : ℚ
  bodyFat : ℚ
deriving DecidableEq

/-- The `get_body_composition` transform: an empty weight frame
short-circuits to `[]`; a zero-row body-fat result is a frame with no
columns, so `df2.rename({"qty": "bodyFat"})` at line 553 raises,
modelled as `Except.error`; otherwise weight rows are left-joined with
body-fat rows on exact `time` and `drop_nulls()` removes rows without
a body-fat match. -/
def get_body_composition (end_date : Option ℤ) (now : ℤ)
    (res1 : List WeightRow) (res2 : List BodyFatRow) :
    Except String (List BodyCompRecord) :=
  let _window := resolveWindow30 now end_date
  if res1.isEmpty then Except.ok [] else
  if res2.isEmpty then Except.error "ColumnNotFoundError: qty" else
  Except.ok ((joinLeft res1 res2 WeightRow.time BodyFatRow.time).filterMap fun p =>
    p.2.map fun bf => { time := formatMonthDay p.1.time, weight := p.1.qty, bodyFat := bf.qty })

/-! ## Dietary trends (`get_dietary_trends`, main.py lines 374-499) -/

structure QtyRow where
  time : ℤ
  qty : ℚ
deriving DecidableEq

structure DietaryRecord where
  date : String
  calories : ℤ
  protein : Option ℤ
  carbs : Option ℤ
  fat : Option ℤ
  trend : Option ℤ
deriving DecidableEq

/-- Per-day integer sums: convert times to the display zone, group by
calendar day, sum `qty` and cast to Int64, sort by day (lines 408-412
and the three analogous blocks).  Group output is modelled in ascending
day order, which is the first-appearance order of a time-sorted frame
and the order forced by the trailing `.sort("day")`. -/
def dailySumInt (tz : ℤ) (rows : List QtyRow) : List (ℤ × ℤ) :=
  (sortDedup (rows.map fun r => dayOf (r.time + tz))).map fun d =>
    (d, ratTrunc ((rows.filter fun r => decide (dayOf (r.time + tz) = d)).map QtyRow.qty).sum)

/-- Model of `rolling_mean(window_size, min_samples)` over a column with no
nulls: entry `i` is the mean of the trailing window ending at `i` when
it holds at least `min_samples` values, else null. -/
def rolling_mean (window min_samples : ℕ) (xs : List ℚ) : List (Option ℚ) :=
  (List.range xs.length).map fun i =>
    let w := (xs.take (i + 1)).drop (i + 1 - window)
    if min_samples ≤ w.length then some (ratMean w) else none

/-- The trend frame (lines 483-490): per-day sums of the 37-day
dietary-energy query, rolling mean with window 7 and minimum 3 samples,
cast to Int64, day-keyed. -/
def trendSeries (tz : ℤ) (rows : List QtyRow) : List (ℤ × Option ℤ) :=
  let days := sortDedup (rows.map fun r => dayOf (r.time + tz))
  let sums := days.map fun d =>
    ((rows.filter fun r => decide (dayOf (r.time + tz) = d)).map QtyRow.qty).sum
  days.zip ((rolling_mean 7 3 sums).map (Option.map ratTrunc))

/-- Model of `fill_null(strategy="forward")` with a running last-seen value. -/
def fillForwardAux (last : Option ℤ) : List (Option ℤ) → List (Option ℤ)
  | [] => []
  | none :: rest => last :: fillForwardAux last rest
  | some v :: rest => some v :: fillForwardAux (some v) rest

/-- Model of `fill_null(strategy="forward")`: nulls take the most recent earlier
non-null value; leading nulls stay null. -/
def fill_null_forward (xs : List (Option ℤ)) : List (Option ℤ) := fillForwardAux none xs

/-- The trend column computation of `get_dietary_trends` on one
already-aligned daily series: rolling mean (window 7, minimum 3
samples) cast to Int64 (line 489) followed by the post-join forward
fill (line 496). -/
def trendColumn (xs : List ℚ) : List (Option ℤ) :=
  fill_null_forward ((rolling_mean 7 3 xs).map (Option.map ratTrunc))

/-- The `get_dietary_trends` transform: an empty calories frame
short-circuits to `[]` before the remaining queries; a zero-row
protein, carb, fat or trend result is a frame with no columns, so the
`with_columns(pl.col("time")...)` applied to it (lines 427/446/465/484,
in program order) raises, modelled as `Except.error`; otherwise the
four daily-sum frames and the trend frame are chained with left joins
on `day`, the joined trend column is forward-filled, and records are
emitted. -/
def get_dietary_trends (end_date : Option ℤ) (now tz : ℤ)
    (res1 res2 res3 res4 res5 : List QtyRow) : Except String (List DietaryRecord) :=
  let _window := resolveWindow30 now end_date
  let _twindow := resolveWindowDietaryTrend now end_date
  if res1.isEmpty then Except.ok [] else
  if res2.isEmpty then Except.error "ColumnNotFoundError: time" else
  if res3.isEmpty then Except.error "ColumnNotFoundError: time" else
  if res4.isEmpty then Except.error "ColumnNotFoundError: time" else
  if res5.isEmpty then Except.error "ColumnNotFoundError: time" else
  let df := dailySumInt tz res1
  let df2 := dailySumInt tz res2
  let df3 := dailySumInt tz res3
  let df4 := dailySumInt tz res4
  let df5 := trendSeries tz res5
  let j1 := joinLeft df df2 Prod.fst Prod.fst
  let j2 := joinLeft j1 df3 (fun p => p.1.1) Prod.fst
  let j3 := joinLeft j2 df4 (fun p => p.1.1.1) Prod.fst
  let j4 := joinLeft j3 df5 (fun p => p.1.1.1.1) Prod.fst
  let trendFilled := fill_null_forward (j4.map fun p => p.2.bind Prod.snd)
  Except.ok ((j4.zip trendFilled).map fun q =>
    { date := formatMonthDay (q.1.1.1.1.1.1 * secondsPerDay),
      calories := q.1.1.1.1.1.2,
      protein := q.1.1.1.1.2.map Prod.snd,
      carbs := q.1.1.1.2.map Prod.snd,
      fat := q.1.1.2.map Prod.snd,
      trend := q.2 })

/-! ## Claim theorems -/

/-- C1: for every blood-pressure row the category is decided by the
five rules evaluated top-down with first match winning — rule 1
(systolic > 180 or diastolic > 120) gives "Hypertensive Crisis", rule 2
(≥140 or ≥90) "Hypertension Stage 2", rule 3 (≥130 or ≥80)
"Hypertension Stage 1", rule 4 (≥120 and <80) "Elevated", otherwise
"Normal"; the transform assigns exactly this category to every row, and
(185,70) ↦ "Hypertensive Crisis", (130,70) ↦ "Hypertension Stage 1",
(125,70) ↦ "Elevated", (110,70) ↦ "Normal". -/
theorem c1_bp_classification :
    (∀ s d : ℤ,
      ((s > 180 ∨ d > 120) → bpCategory s d = "Hypertensive Crisis") ∧
      (¬(s > 180 ∨ d > 120) → (s ≥ 140 ∨ d ≥ 90) →
        bpCategory s d = "Hypertension Stage 2") ∧
      (¬(s > 180 ∨ d > 120) → ¬(s ≥ 140 ∨ d ≥ 90) → (s ≥ 130 ∨ d ≥ 80) →
        bpCategory s d = "Hypertension Stage 1") ∧
      (¬(s > 180 ∨ d > 120) → ¬(s ≥ 140 ∨ d ≥ 90) → ¬(s ≥ 130 ∨ d ≥ 80) →
        (s ≥ 120 ∧ d < 80) → bpCategory s d = "Elevated") ∧
      (¬(s > 180 ∨ d > 120) → ¬(s ≥ 140 ∨ d ≥ 90) → ¬(s ≥ 130 ∨ d ≥ 80) →
        ¬(s ≥ 120 ∧ d < 80) → bpCategory s d = "Normal")) ∧
    (∀ (end_date : Option ℤ) (now : ℤ) (res : List BPRow),
      (get_blood_pressure end_date now res).map BPRecord.category
        = res.map fun r => bpCategory r.systolic r.diastolic) ∧
    (bpCategory 185 70 = "Hypertensive Crisis" ∧
     bpCategory 130 70 = "Hypertension Stage 1" ∧
     bpCategory 125 70 = "Elevated" ∧
     bpCategory 110 70 = "Normal") := by
  refine ⟨?_, ?_, by decide, by decide, by decide, by decide⟩
  · intro s d
    refine ⟨fun h1 => ?_, fun h1 h2 => ?_, fun h1 h2 h3 => ?_,
      fun h1 h2 h3 h4 => ?_, fun h1 h2 h3 h4 => ?_⟩
    · simp [bpCategory, h1]
    · simp [bpCategory, h1, h2]
    · simp [bpCategory, h1, h2, h3]
    · simp [bpCategory, h1, h2, h3, h4]
    · simp [bpCategory, h1, h2, h3, h4]
  · intro e n res
    cases res with
    | nil => rfl
    | cons a l => simp [get_blood_pressure, mkBPRecord, List.map_map, Function.comp]

/-- Witness for C1: instantiates the cascade at (130, 70), discharging
the first-match hypotheses, recovering the "Hypertension Stage 1"
precedence over rule 4. -/
theorem c1_bp_classification_witness :
    ¬((130:ℤ) > 180 ∨ (70:ℤ) > 120) ∧ ¬((130:ℤ) ≥ 140 ∨ (70:ℤ) ≥ 90) ∧
    ((130:ℤ) ≥ 130 ∨ (70:ℤ) ≥ 80) ∧ bpCategory 130 70 = "Hypertension Stage 1" :=
  ⟨by decide, by decide, by decide,
    (c1_bp_classification.1 130 70).2.2.1 (by decide) (by decide) (by decide)⟩

/-- Sanity check for the calendar model: epoch day 19783 is 2024-03-01
and epoch day 19753 is 2024-01-31. -/
theorem civilFromDays_2024 :
    civilFromDays 19783 = (2024, 3, 1) ∧ civilFromDays 19753 = (2024, 1, 31) := by
  constructor <;> decide

/-- Counterexample to C3: the claim puts `start` at the supplied
`end_date`, but the code always puts `start` at the clock value `now`
(`start = today.isoformat()`).  With `now` = 2024-03-18T12:00 and
`end_date` = 2024-03-01 (epoch day 19783), the resolved `start` is not
the supplied date. -/
theorem c3_window_start_counterexample :
    (resolveWindow30 (19800 * secondsPerDay + 43200) (some (19783 * secondsPerDay))).wStart
      ≠ 19783 * secondsPerDay := by decide

/-- C3 amended: for every supplied `end_date` and a 30-day lookback,
the resolved window has `end = end_date - 30 days` and
`start = now` (the injected clock), with `end < start` whenever
`end_date - 30 days` lies before `now`; for `end_date` = 2024-03-01
(epoch day 19783) the resolved `end` is 2024-01-31 (epoch day 19753). -/
theorem c3_window_resolution :
    ∀ (now d : ℤ),
      (resolveWindow30 now (some d)).wEnd = d - 30 * secondsPerDay ∧
      (resolveWindow30 now (some d)).wStart = now ∧
      (d - 30 * secondsPerDay < now →
        (resolveWindow30 now (some d)).wEnd < (resolveWindow30 now (some d)).wStart) ∧
      (resolveWindow30 (19800 * secondsPerDay + 43200) (some (19783 * secondsPerDay))).wEnd
        = 19753 * secondsPerDay := by
  intro now d
  exact ⟨rfl, rfl, fun h => h, by decide⟩

/-- Witness for C3: at `now` = 2024-03-18T12:00 and `end_date` =
2024-03-01 the bound hypothesis holds and `end < start` follows. -/
theorem c3_window_resolution_witness :
    ((19783 * secondsPerDay : ℤ) - 30 * secondsPerDay < 19800 * secondsPerDay + 43200) ∧
    ((resolveWindow30 (19800 * secondsPerDay + 43200) (some (19783 * secondsPerDay))).wEnd
      < (resolveWindow30 (19800 * secondsPerDay + 43200) (some (19783 * secondsPerDay))).wStart) :=
  ⟨by decide,
    (c3_window_resolution (19800 * secondsPerDay + 43200) (19783 * secondsPerDay)).2.2.1
      (by decide)⟩

/-- Counterexample to C4: with no supplied date the workouts window's
earlier bound is 90 days before now, not 30 (`end = (today -
timedelta(days=90)).isoformat()`, main.py line 327); at `now = 0` the
bound differs from the claimed 30-day lookback. -/
theorem c4_workouts_lookback_counterexample :
    (resolveWindowWorkouts 0 none).wEnd ≠ 0 - 30 * secondsPerDay := by decide

/-- C4 amended: for every request without a supplied date, the workouts
window's earlier bound is 90 days before `now` (and `start` is `now`);
the 30-day lookback applies only when a date is supplied. -/
theorem c4_workouts_default_lookback :
    ∀ now d : ℤ,
      (resolveWindowWorkouts now none).wEnd = now - 90 * secondsPerDay ∧
      (resolveWindowWorkouts now none).wStart = now ∧
      (resolveWindowWorkouts now (some d)).wEnd = d - 30 * secondsPerDay :=
  fun _ _ => ⟨rfl, rfl, rfl⟩

/-- C2 (evaluating the code at the failing input): on a zero-row
primary store result, summary returns the all-zero record and blood
pressure, glucose, sleep, workouts, dietary trends and body composition
return the empty list (the latter three short-circuit before their
remaining queries, so those arguments are arbitrary here) — but the
heart-rate transform does not return an empty sequence: the connector
hands it a frame with no columns and its first `pl.col("time")` access
raises (modelled as `Except.error`), so the claimed "empty sequence"
behavior fails for heart rate. -/
theorem c2_zero_rows_behavior :
    ∀ (date end_date : Option ℤ) (now tz : ℤ) (hres : List WorkoutHRRow)
      (bfres : List BodyFatRow) (res2 res3 res4 res5 : List QtyRow),
      get_summary date now tz [] =
        { steps := 0, distance := 0, activeCalories := 0,
          basalCalories := 0, dietaryCalories := 0 } ∧
      get_heart_rate date now tz [] = Except.error "ColumnNotFoundError: time" ∧
      (∀ l : List HRRecord, get_heart_rate date now tz [] ≠ Except.ok l) ∧
      get_blood_pressure end_date now [] = [] ∧
      get_glucose end_date now [] = [] ∧
      get_sleep end_date now [] = [] ∧
      get_workouts date now [] hres = Except.ok [] ∧
      get_dietary_trends end_date now tz [] res2 res3 res4 res5 = Except.ok [] ∧
      get_body_composition end_date now [] bfres = Except.ok [] :=
  fun _ _ _ _ _ _ _ _ _ _ =>
    ⟨rfl, rfl, fun _ h => Except.noConfusion h, rfl, rfl, rfl, rfl, rfl, rfl⟩

/-- C7: an opaque store/query failure is caught at the collaborator
boundary and converted into an empty frame — `get_dataframe` is total
(it returns a frame, never an exception) and maps every `error` result
to the empty frame, so a transform consuming it sees only the empty
frame (shown here composed with the blood-pressure and glucose
transforms). -/
theorem c7_store_failure_empty_frame :
    (∀ (α : Type) (timeOf : α → ℤ) (e : String),
      get_dataframe timeOf (Except.error e) = []) ∧
    (∀ (e : String) (end_date : Option ℤ) (now : ℤ),
      get_blood_pressure end_date now (get_dataframe BPRow.time (Except.error e)) = [] ∧
      get_glucose end_date now (get_dataframe GlucoseRow.time (Except.error e)) = []) :=
  ⟨fun _ _ _ => rfl, fun _ _ _ => ⟨rfl, rfl⟩⟩

/-- C9: the summary and heart-rate transforms bind the optional `date`
query parameter but never read it, so for any two parameter values
(including absent), the same store results and the same clock/zone
produce identical outputs. -/
theorem c9_date_param_independence :
    ∀ (d1 d2 : Option ℤ) (now tz : ℤ) (sres : List DailyTotalRow) (hres : List HRRow),
      get_summary d1 now tz sres = get_summary d2 now tz sres ∧
      get_heart_rate d1 now tz hres = get_heart_rate d2 now tz hres :=
  fun _ _ _ _ _ _ => ⟨rfl, rfl⟩

/-- Helper: a left row with at most one match contributes exactly
itself to the left column of the join output. -/
theorem matchRows_map_fst_of_le_one {α β : Type} (ms : List β) (a : α)
    (h : ms.length ≤ 1) : (matchRows ms a).map Prod.fst = [a] := by
  cases ms with
  | nil => rfl
  | cons b bs =>
    cases bs with
    | nil => rfl
    | cons c cs => simp only [List.length_cons] at h; omega

/-- Helper: when every left row has at most one match, the join's left
column is the left frame itself. -/
theorem joinLeft_map_fst {α β K : Type} [DecidableEq K]
    (right : List β) (lk : α → K) (rk : β → K) :
    ∀ left : List α,
      (∀ a ∈ left, (right.filter fun b => decide (rk b = lk a)).length ≤ 1) →
      (joinLeft left right lk rk).map Prod.fst = left := by
  intro left
  induction left with
  | nil => intro _; rfl
  | cons a as ih =>
    intro h
    have iha := ih fun x hx => h x (List.mem_cons_of_mem a hx)
    simp only [joinLeft, List.flatMap_cons, List.map_append]
    simp only [joinLeft] at iha
    rw [matchRows_map_fst_of_le_one _ _ (h a (List.mem_cons_self a as)), iha]
    rfl

/-- C5 amended: the left join preserves the left-row count and keeps
each left row exactly once, in order, provided every left key matches
at most one right row; with repeated matching right keys the join
instead emits one row per match, so the output can exceed the left-row
count.  The hypothesis holds where the right frame has been grouped by
the join key (the workouts and dietary call sites) but is not
guaranteed at the body-composition call site, whose right frame is the
raw ungrouped body-fat result. -/
theorem c5_left_join_row_count :
    ∀ {α β K : Type} [DecidableEq K] (left : List α) (right : List β)
      (lk : α → K) (rk : β → K),
      (∀ a ∈ left, (right.filter fun b => decide (rk b = lk a)).length ≤ 1) →
      (joinLeft left right lk rk).map Prod.fst = left ∧
      (joinLeft left right lk rk).length = left.length := by
  intro α β K inst left right lk rk h
  have hmap := joinLeft_map_fst right lk rk left h
  refine ⟨hmap, ?_⟩
  calc (joinLeft left right lk rk).length
      = ((joinLeft left right lk rk).map Prod.fst).length := (List.length_map _ _).symm
    _ = left.length := by rw [hmap]

/-- Counterexample to C5 as stated: at the body-composition call site
(join on `time`), a right frame with a repeated key value duplicates
the matching left row, so a 1-row left frame yields 2 output rows. -/
theorem c5_left_join_counterexample :
    (joinLeft [({ time := 0, qty := 80 } : WeightRow)]
      [({ time := 0, qty := 20 } : BodyFatRow), { time := 0, qty := 21 }]
      WeightRow.time BodyFatRow.time).length = 2 ∧
    [({ time := 0, qty := 80 } : WeightRow)].length = 1 :=
  ⟨rfl, rfl⟩

def sampleWorkoutRow : WorkoutRow :=
  { workout_id := "w1", time := 0, workout_name := "Run", duration := 3600,
    active_energy_value := 500 }

def sampleWorkoutHRRow : WorkoutHRRow :=
  { workout_id := "w2", time := 0, avg := 150 }

/-- Witness for C5: at the workouts call site the right frame is
grouped by workout id, each left key matches at most one right row, and
the join output has exactly the left-row count. -/
theorem c5_left_join_row_count_witness :
    (∀ a ∈ [shapeWorkout sampleWorkoutRow],
      ((groupWorkoutHR [sampleWorkoutHRRow]).filter
        fun b => decide (HRAgg.workout_id b = ShapedWorkout.workout_id a)).length ≤ 1) ∧
    (joinLeft [shapeWorkout sampleWorkoutRow] (groupWorkoutHR [sampleWorkoutHRRow])
      ShapedWorkout.workout_id HRAgg.workout_id).length
      = [shapeWorkout sampleWorkoutRow].length :=
  ⟨by decide,
    (c5_left_join_row_count [shapeWorkout sampleWorkoutRow]
      (groupWorkoutHR [sampleWorkoutHRRow])
      ShapedWorkout.workout_id HRAgg.workout_id (by decide)).2⟩

/-- C6: on the 10 consecutive daily values [10,20,30,10,20,30,10,20,30,10],
the dietary trend pipeline (trailing rolling mean, window 7, minimum 3
samples, Int64 cast, then forward fill) leaves the first 2 outputs
null, makes the 3rd output the (truncated) mean of the first 3 values
(= 20), and every position after the first real value is non-null, so
no null survives the forward fill there. -/
theorem c6_rolling_trend :
    (trendColumn [10, 20, 30, 10, 20, 30, 10, 20, 30, 10]).take 2 = [none, none] ∧
    (trendColumn [10, 20, 30, 10, 20, 30, 10, 20, 30, 10])[2]?
      = some (some (ratTrunc (ratMean [10, 20, 30]))) ∧
    ratTrunc (ratMean [10, 20, 30]) = 20 ∧
    ((trendColumn [10, 20, 30, 10, 20, 30, 10, 20, 30, 10]).drop 2).all Option.isSome
      = true := by
  refine ⟨rfl, rfl, ?_, rfl⟩
  have h : ratMean [(10 : ℚ), 20, 30] = 20 := by
    simp [ratMean]
    norm_num
  rw [h, ratTrunc]
  norm_num

/-- Helper: every output pair of `matchRows` carries the left row. -/
theorem fst_of_mem_matchRows {α β : Type} {ms : List β} {a : α}
    {p : α × Option β} (hp : p ∈ matchRows ms a) : p.1 = a := by
  cases ms with
  | nil =>
    simp only [matchRows, List.mem_singleton] at hp
    rw [hp]
  | cons b bs =>
    simp only [matchRows, List.mem_map] at hp
    obtain ⟨x, _, hx⟩ := hp
    rw [← hx]

/-- Helper: the left component of every join output row comes from the
left frame. -/
theorem fst_mem_of_mem_joinLeft {α β K : Type} [DecidableEq K]
    {left : List α} {right : List β} {lk : α → K} {rk : β → K}
    {p : α × Option β} (hp : p ∈ joinLeft left right lk rk) : p.1 ∈ left := by
  simp only [joinLeft, List.mem_flatMap] at hp
  obtain ⟨a, ha, hpa⟩ := hp
  rw [fst_of_mem_matchRows hpa]
  exact ha

/-- C8: every record of a successful workouts-transform run has its
duration obtained from some raw workout row by dividing by 60 and
truncating to an integer; in particular a raw duration of 3600 converts
to 60.  (A zero-row heart-rate result makes the run fail with a
missing-column error instead of emitting records.) -/
theorem c8_duration_truncation :
    (∀ (date : Option ℤ) (now : ℤ) (wres : List WorkoutRow) (hres : List WorkoutHRRow)
      (recs : List WorkoutRecord),
      get_workouts date now wres hres = Except.ok recs →
      ∀ rec ∈ recs, ∃ w ∈ wres, rec.duration = ratTrunc (w.duration / 60)) ∧
    ratTrunc ((3600 : ℚ) / 60) = 60 := by
  constructor
  · intro date now wres hres recs hok rec hrec
    cases wres with
    | nil =>
      rw [show get_workouts date now [] hres = Except.ok [] from rfl] at hok
      injection hok with h
      subst h
      exact absurd hrec (List.not_mem_nil rec)
    | cons a as =>
      cases hres with
      | nil =>
        rw [show get_workouts date now (a :: as) []
            = Except.error "ColumnNotFoundError: workout_id" from rfl] at hok
        exact Except.noConfusion hok
      | cons b bs =>
        rw [show get_workouts date now (a :: as) (b :: bs)
            = Except.ok ((joinLeft ((a :: as).map shapeWorkout) (groupWorkoutHR (b :: bs))
                ShapedWorkout.workout_id HRAgg.workout_id).map
              fun p => mkWorkoutRecord p.1 p.2) from rfl] at hok
        injection hok with h
        subst h
        simp only [List.mem_map] at hrec
        obtain ⟨p, hp, hrec⟩ := hrec
        have hfst := fst_mem_of_mem_joinLeft hp
        simp only [List.mem_map] at hfst
        obtain ⟨w, hw, hsw⟩ := hfst
        refine ⟨w, hw, ?_⟩
        rw [← hrec, ← hsw]
        rfl
  · rw [show ((3600 : ℚ) / 60) = 60 by norm_num, ratTrunc]
    norm_num

/-- Witness for C8: on a one-workout frame with raw duration 3600 and a
nonempty heart-rate frame, the run succeeds with one record, the
theorem recovers its duration as the truncated division by 60, and that
value is 60. -/
theorem c8_duration_truncation_witness :
    (get_workouts none 0 [sampleWorkoutRow] [sampleWorkoutHRRow]
      = Except.ok [mkWorkoutRecord (shapeWorkout sampleWorkoutRow) none]) ∧
    (∃ w ∈ [sampleWorkoutRow],
      (mkWorkoutRecord (shapeWorkout sampleWorkoutRow) none).duration
        = ratTrunc (w.duration / 60)) ∧
    (mkWorkoutRecord (shapeWorkout sampleWorkoutRow) none).duration = 60 :=
  ⟨rfl,
    c8_duration_truncation.1 none 0 [sampleWorkoutRow] [sampleWorkoutHRRow]
      [mkWorkoutRecord (shapeWorkout sampleWorkoutRow) none] rfl _ (List.Mem.head _),
    c8_duration_truncation.2⟩

/-- Helper: grouping by workout id introduces no key that is absent
from the heart-rate rows. -/
theorem groupWorkoutHR_keys {hres : List WorkoutHRRow} {k : String}
    (h : ∀ r ∈ hres, r.workout_id ≠ k) :
    ∀ g ∈ groupWorkoutHR hres, g.workout_id ≠ k := by
  intro g hg
  simp only [groupWorkoutHR, List.mem_map] at hg
  obtain ⟨k2, hk2, hgk⟩ := hg
  have hk2m : k2 ∈ hres.map WorkoutHRRow.workout_id := List.mem_dedup.mp hk2
  simp only [List.mem_map] at hk2m
  obtain ⟨r, hr, hrk⟩ := hk2m
  rw [← hgk]
  simpa [hrk] using h r hr

/-- Helper: a left row with no match joins to the null-extended pair. -/
theorem mem_joinLeft_of_no_match {α β K : Type} [DecidableEq K]
    {left : List α} {right : List β} {lk : α → K} {rk : β → K}
    {a : α} (ha : a ∈ left)
    (hnone : ∀ b ∈ right, rk b ≠ lk a) :
    (a, (none : Option β)) ∈ joinLeft left right lk rk := by
  have hfilter : (right.filter fun b => decide (rk b = lk a)) = [] := by
    rw [List.filter_eq_nil_iff]
    intro b hb
    simpa using hnone b hb
  simp only [joinLeft, List.mem_flatMap]
  exact ⟨a, ha, by rw [hfilter]; exact List.Mem.head _⟩

/-- C10: in a successful workouts-transform run (the heart-rate result
has at least one row, so the group-by does not fail), a workout row
whose id has no matching row in the workout-heart-rate result is
emitted by the left join with a null `avgHr` field; no default is
substituted. -/
theorem c10_unmatched_avgHr_null :
    ∀ (date : Option ℤ) (now : ℤ) (wres : List WorkoutRow) (hres : List WorkoutHRRow)
      (w : WorkoutRow), w ∈ wres → hres ≠ [] →
      (∀ r ∈ hres, r.workout_id ≠ w.workout_id) →
      (∃ recs, get_workouts date now wres hres = Except.ok recs ∧
        mkWorkoutRecord (shapeWorkout w) none ∈ recs) ∧
      (mkWorkoutRecord (shapeWorkout w) none).avgHr = none := by
  intro date now wres hres w hw hne hno
  refine ⟨?_, rfl⟩
  cases wres with
  | nil => exact absurd hw (List.not_mem_nil w)
  | cons a as =>
    cases hres with
    | nil => exact absurd rfl hne
    | cons b bs =>
      refine ⟨_, rfl, ?_⟩
      have hjoin : (shapeWorkout w, (none : Option HRAgg)) ∈
          joinLeft ((a :: as).map shapeWorkout) (groupWorkoutHR (b :: bs))
            ShapedWorkout.workout_id HRAgg.workout_id := by
        refine mem_joinLeft_of_no_match (List.mem_map_of_mem shapeWorkout hw) ?_
        intro g hg
        exact groupWorkoutHR_keys hno g hg
      exact List.mem_map_of_mem (fun p => mkWorkoutRecord p.1 p.2) hjoin

/-- Witness for C10: a single workout "w1" and a nonempty heart-rate
frame whose only row belongs to "w2" yield a successful run whose
record has `avgHr = none`. -/
theorem c10_unmatched_avgHr_null_witness :
    sampleWorkoutRow ∈ [sampleWorkoutRow] ∧
    ([sampleWorkoutHRRow] : List WorkoutHRRow) ≠ [] ∧
    (∀ r ∈ [sampleWorkoutHRRow], r.workout_id ≠ sampleWorkoutRow.workout_id) ∧
    (∃ recs, get_workouts none 0 [sampleWorkoutRow] [sampleWorkoutHRRow] = Except.ok recs ∧
      mkWorkoutRecord (shapeWorkout sampleWorkoutRow) none ∈ recs) ∧
    (mkWorkoutRecord (shapeWorkout sampleWorkoutRow) none).avgHr = none :=
  ⟨List.Mem.head _, by decide, by decide,
    (c10_unmatched_avgHr_null none 0 [sampleWorkoutRow] [sampleWorkoutHRRow]
      sampleWorkoutRow (List.Mem.head _) (by decide) (by decide)).1,
    (c10_unmatched_avgHr_null none 0 [sampleWorkoutRow] [sampleWorkoutHRRow]
      sampleWorkoutRow (List.Mem.head _) (by decide) (by decide)).2⟩
